import Mathlib

/-!
Shallow embedding of the guestara menu-catalog service: the pricing and
tax-inheritance core (models `Category`, `SubCategory`, `Item`; the helpers
`calculateTotal`; the schema defaults, schema validation and the pre-save /
pre-findOneAndUpdate hooks of the Item schema; and the create/update
controller functions for the three entities).

Modelling conventions:
* JS numbers are modelled as rationals (`ℚ`); the inputs of interest are
  currency-like decimals, and the toFixed(2) rounding of the source is
  modelled as exact half-up rounding at two decimal places (`round2`).
* A field that may be `undefined` in a request body or absent on a stored
  document is an `Option`.  JS truthiness tests on strings
  (`!name`) are `strFalsy`; on id strings (`if (categoryId)`) they are
  `idTruthy`.  `null` payload values are outside the modelled domain.
* Payload fields carry their schema type (well-typed requests); mongoose
  cast failures for the empty id string are modelled where the source
  surfaces them (a CastError branch answering 404).
* The persistence collaborator is a fixed environment `Db` of parent
  records; the uniqueness (duplicate-key, error code 11000) branches are
  not modelled: they concern records disjoint from the one under study and
  no claim depends on them.  Timestamps are not modelled.
* Mongoose runs document validation before user pre-save hooks (changes
  made in pre-save hooks are not re-validated), and update validators check
  only the value-level constraints (min / max / enum / required-on-set) of
  the paths present in the update; conditional `required` functions do not
  re-run against the stored document on updates.  Both behaviours are
  reflected below.
-/

set_option allowUnsafeReducibility true in
attribute [semireducible] Rat.add Rat.sub Rat.mul Rat.inv

namespace Catalog

/-- Outcome of a controller call: a stored record, or an HTTP error
(status code and message). -/
inductive Res (α : Type) where
  | ok : α → Res α
  | err : Nat → String → Res α
deriving DecidableEq

/-- JS falsiness of a possibly-undefined string (`!s`): undefined or empty. -/
def strFalsy : Option String → Bool
  | none => true
  | some s => s = ""

/-- JS truthiness of a possibly-undefined id string (`if (id)`). -/
def idTruthy : Option String → Bool
  | none => false
  | some s => s ≠ ""

/-- The `enum: ['percentage', 'fixed']` constraint of the tax-type paths. -/
def enumTaxType (s : String) : Bool := s = "percentage" || s = "fixed"

/-- Schema `min: 0` violation on an optional numeric path. -/
def belowZero : Option ℚ → Bool
  | some t => decide (t < 0)
  | none => false

/-- Schema `max: 100` violation on an optional numeric path. -/
def aboveHundred : Option ℚ → Bool
  | some t => decide (t > 100)
  | none => false

/-- Schema enum violation on an optional tax-type path. -/
def notInEnum : Option String → Bool
  | some v => !enumTaxType v
  | none => false

/-- Half-up rounding to two decimal places; models
`Number((x).toFixed(2))` on the nonnegative currency-like domain. -/
def round2 (x : ℚ) : ℚ := (((x * 100 + 1 / 2).floor : ℤ) : ℚ) / 100

/-- utils/helpers.js `calculateTotal`: guards the amount preconditions and
returns the rounded difference. -/
def calculateTotal (baseAmount : ℚ) (discount : ℚ) : Except String ℚ :=
  if baseAmount < 0 then .error "Base amount must be a non-negative number"
  else if discount < 0 then .error "Discount must be a non-negative number"
  else if discount > baseAmount then
    .error "Discount cannot be greater than base amount"
  else .ok (round2 (baseAmount - discount))

/-- A stored Category document. -/
structure Category where
  name : String
  image : String
  description : String
  taxApplicability : Bool
  tax : Option ℚ
  taxType : Option String
deriving DecidableEq

/-- A stored SubCategory document. -/
structure SubCategory where
  name : String
  image : String
  description : String
  taxApplicability : Bool
  tax : Option ℚ
  taxType : Option String
  categoryId : String
deriving DecidableEq

/-- A stored Item document. -/
structure Item where
  name : String
  image : String
  description : String
  taxApplicability : Bool
  tax : Option ℚ
  taxType : Option String
  baseAmount : ℚ
  discount : ℚ
  totalAmount : ℚ
  categoryId : Option String
  subCategoryId : Option String
deriving DecidableEq

/-- The persisted parent records visible to existence checks. -/
structure Db where
  cat : String → Option Category
  sub : String → Option SubCategory

/-- Schema default application at document construction for Category:
`taxType` defaults to percentage when undefined (Category.js). -/
def applyCategoryDefaults (c : Category) : Category :=
  { c with taxType := some (c.taxType.getD "percentage") }

/-- Schema default application for SubCategory (SubCategory.js). -/
def applySubCategoryDefaults (s : SubCategory) : SubCategory :=
  { s with taxType := some (s.taxType.getD "percentage") }

/-- Schema default application for Item (Item model). -/
def applyItemDefaults (d : Item) : Item :=
  { d with taxType := some (d.taxType.getD "percentage") }

/-- Category schema validation at save time: required text fields,
required-if tax fields, tax bounds and the tax type enum. -/
def categoryDocValid (c : Category) : Option String :=
  if c.name = "" then some "Category name is required"
  else if c.image = "" then some "Category image URL is required"
  else if c.description = "" then some "Category description is required"
  else if c.taxApplicability && c.tax.isNone then some "Tax path is required"
  else if belowZero c.tax then
    some "Tax cannot be negative"
  else if aboveHundred c.tax then
    some "Tax cannot exceed 100%"
  else if c.taxApplicability && c.taxType.isNone then
    some "Tax type path is required"
  else if notInEnum c.taxType then
    some "Tax type is not a valid enum value"
  else none

/-- SubCategory schema validation at save time. -/
def subCategoryDocValid (s : SubCategory) : Option String :=
  if s.name = "" then some "Subcategory name is required"
  else if s.image = "" then some "Subcategory image URL is required"
  else if s.description = "" then some "Subcategory description is required"
  else if s.taxApplicability && s.tax.isNone then some "Tax path is required"
  else if belowZero s.tax then
    some "Tax cannot be negative"
  else if aboveHundred s.tax then
    some "Tax cannot exceed 100%"
  else if s.taxApplicability && s.taxType.isNone then
    some "Tax type path is required"
  else if notInEnum s.taxType then
    some "Tax type is not a valid enum value"
  else none

/-- Item schema validation at save time, including the amount bounds, the
discount-vs-base custom validator and the ownership required-if fields. -/
def itemDocValid (d : Item) : Option String :=
  if d.name = "" then some "Item name is required"
  else if d.image = "" then some "Item image URL is required"
  else if d.description = "" then some "Item description is required"
  else if d.taxApplicability && d.tax.isNone then some "Tax path is required"
  else if belowZero d.tax then
    some "Tax cannot be negative"
  else if aboveHundred d.tax then
    some "Tax cannot exceed 100%"
  else if d.taxApplicability && d.taxType.isNone then
    some "Tax type path is required"
  else if notInEnum d.taxType then
    some "Tax type is not a valid enum value"
  else if d.baseAmount < 0 then some "Base amount cannot be negative"
  else if d.discount < 0 then some "Discount cannot be negative"
  else if d.discount > d.baseAmount then
    some "Discount cannot be greater than base amount"
  else if d.totalAmount < 0 then some "Total amount cannot be negative"
  else if d.categoryId.isNone && d.subCategoryId.isNone then
    some "Category path is required"
  else none

/-- Item pre-save hook: unconditionally recompute the total as the raw
difference (no rounding); runs after document validation. -/
def itemPreSaveHook (d : Item) : Item :=
  { d with totalAmount := d.baseAmount - d.discount }

/-- A Category or SubCategory request body (both controllers destructure
the same six fields). -/
structure CatPayload where
  name : Option String := none
  image : Option String := none
  description : Option String := none
  taxApplicability : Option Bool := none
  tax : Option ℚ := none
  taxType : Option String := none
deriving DecidableEq

/-- categoryController `createCategory`. -/
def createCategory (p : CatPayload) : Res Category :=
  if strFalsy p.name || strFalsy p.image || strFalsy p.description
      || p.taxApplicability.isNone then
    .err 400 "Name, image, description, and tax applicability are required"
  else
    let ta := p.taxApplicability.getD false
    if ta && (p.tax.isNone || strFalsy p.taxType) then
      .err 400 "Tax amount and tax type are required when tax is applicable"
    else
      let doc := applyCategoryDefaults {
        name := p.name.getD "", image := p.image.getD "",
        description := p.description.getD "",
        taxApplicability := ta,
        tax := if ta then p.tax else none,
        taxType := if ta then p.taxType else none }
      match categoryDocValid doc with
      | some m => .err 400 m
      | none => .ok doc

/-- subCategoryController `createSubCategory`: looks up the parent by the
URL parameter and merges the three tax fields field-by-field, the request
value winning over the parent value. -/
def createSubCategory (db : Db) (categoryId : String) (p : CatPayload) :
    Res SubCategory :=
  if strFalsy p.name || strFalsy p.image || strFalsy p.description then
    .err 400 "Name, image, and description are required"
  else match db.cat categoryId with
  | none => .err 404 "Parent category not found"
  | some parent =>
    let data : SubCategory := {
      name := p.name.getD "", image := p.image.getD "",
      description := p.description.getD "",
      categoryId := categoryId,
      taxApplicability := p.taxApplicability.getD parent.taxApplicability,
      tax := p.tax <|> parent.tax,
      taxType := p.taxType <|> parent.taxType }
    if data.taxApplicability && (data.tax.isNone || strFalsy data.taxType) then
      .err 400 "Tax amount and tax type are required when tax is applicable"
    else
      let doc := applySubCategoryDefaults data
      match subCategoryDocValid doc with
      | some m => .err 400 m
      | none => .ok doc

/-- An Item request body.  `totalAmount` may be supplied by callers but the
source never destructures it; it is carried here to state that it is
ignored. -/
structure ItemPayload where
  name : Option String := none
  image : Option String := none
  description : Option String := none
  taxApplicability : Option Bool := none
  tax : Option ℚ := none
  taxType : Option String := none
  baseAmount : Option ℚ := none
  discount : Option ℚ := none
  totalAmount : Option ℚ := none
  categoryId : Option String := none
  subCategoryId : Option String := none
deriving DecidableEq

/-- itemController `createItem`. -/
def createItem (db : Db) (p : ItemPayload) : Res Item :=
  if strFalsy p.name || strFalsy p.image || strFalsy p.description
      || p.taxApplicability.isNone || p.baseAmount.isNone then
    .err 400
      "Name, image, description, tax applicability, and base amount are required"
  else if !idTruthy p.categoryId && !idTruthy p.subCategoryId then
    .err 400 "Either category ID or subcategory ID must be provided"
  else if idTruthy p.categoryId && idTruthy p.subCategoryId then
    .err 400 "Item cannot belong to both category and subcategory simultaneously"
  else
    let ta := p.taxApplicability.getD false
    if ta && (p.tax.isNone || strFalsy p.taxType) then
      .err 400 "Tax amount and tax type are required when tax is applicable"
    else if idTruthy p.categoryId && (db.cat (p.categoryId.getD "")).isNone then
      .err 404 "Category not found"
    else if idTruthy p.subCategoryId
        && (db.sub (p.subCategoryId.getD "")).isNone then
      .err 404 "Subcategory not found"
    else
      let base := p.baseAmount.getD 0
      let disc := p.discount.getD 0
      match calculateTotal base disc with
      | .error m => .err 400 m
      | .ok total =>
        let doc := applyItemDefaults {
          name := p.name.getD "", image := p.image.getD "",
          description := p.description.getD "",
          taxApplicability := ta,
          tax := if ta then p.tax else none,
          taxType := if ta then p.taxType else none,
          baseAmount := base, discount := disc, totalAmount := total,
          categoryId := if idTruthy p.categoryId then p.categoryId else none,
          subCategoryId := if idTruthy p.categoryId then none
            else p.subCategoryId }
        match itemDocValid doc with
        | some m => .err 400 m
        | none => .ok (itemPreSaveHook doc)

/-- The partial-update document built by `updateCategory` /
`updateSubCategory`: a value per path to set, plus the unset marker for the
tax pair. -/
structure BasicUpdate where
  name : Option String := none
  image : Option String := none
  description : Option String := none
  taxApplicability : Option Bool := none
  tax : Option ℚ := none
  taxType : Option String := none
  unsetTax : Bool := false
deriving DecidableEq

/-- The tax-settings block shared verbatim by `updateCategory` and
`updateSubCategory`: switching applicability on demands both tax fields in
the same payload; switching it off unsets them; leaving it untouched still
lets either tax field be set. -/
def buildBasicUpdate (p : CatPayload) : Except (Nat × String) BasicUpdate :=
  let u : BasicUpdate :=
    { name := p.name, image := p.image, description := p.description }
  match p.taxApplicability with
  | some ta =>
    if ta then
      if p.tax.isNone || strFalsy p.taxType then
        .error (400,
          "Tax amount and tax type are required when tax is applicable")
      else .ok { u with taxApplicability := some ta,
                        tax := p.tax, taxType := p.taxType }
    else .ok { u with taxApplicability := some ta, unsetTax := true }
  | none => .ok { u with tax := p.tax, taxType := p.taxType }

/-- Mongo application of a partial update to a stored Category. -/
def applyCatUpdate (c : Category) (u : BasicUpdate) : Category :=
  { name := u.name.getD c.name,
    image := u.image.getD c.image,
    description := u.description.getD c.description,
    taxApplicability := u.taxApplicability.getD c.taxApplicability,
    tax := if u.unsetTax then none else u.tax <|> c.tax,
    taxType := if u.unsetTax then none else u.taxType <|> c.taxType }

/-- Mongo application of a partial update to a stored SubCategory
(`categoryId` is never touched by `updateSubCategory`). -/
def applySubCatUpdate (s : SubCategory) (u : BasicUpdate) : SubCategory :=
  { name := u.name.getD s.name,
    image := u.image.getD s.image,
    description := u.description.getD s.description,
    taxApplicability := u.taxApplicability.getD s.taxApplicability,
    tax := if u.unsetTax then none else u.tax <|> s.tax,
    taxType := if u.unsetTax then none else u.taxType <|> s.taxType,
    categoryId := s.categoryId }

/-- Update validators (runValidators) for the Category paths present in the
update: value-level constraints only. -/
def catUpdateValid (u : BasicUpdate) : Option String :=
  if u.name = some "" then some "Category name is required"
  else if u.image = some "" then some "Category image URL is required"
  else if u.description = some "" then some "Category description is required"
  else if belowZero u.tax then
    some "Tax cannot be negative"
  else if aboveHundred u.tax then
    some "Tax cannot exceed 100%"
  else if notInEnum u.taxType then
    some "Tax type is not a valid enum value"
  else none

/-- Update validators for the SubCategory paths present in the update. -/
def subUpdateValid (u : BasicUpdate) : Option String :=
  if u.name = some "" then some "Subcategory name is required"
  else if u.image = some "" then some "Subcategory image URL is required"
  else if u.description = some "" then
    some "Subcategory description is required"
  else if belowZero u.tax then
    some "Tax cannot be negative"
  else if aboveHundred u.tax then
    some "Tax cannot exceed 100%"
  else if notInEnum u.taxType then
    some "Tax type is not a valid enum value"
  else none

/-- categoryController `updateCategory` against an existing target. -/
def updateCategory (cur : Category) (p : CatPayload) : Res Category :=
  match buildBasicUpdate p with
  | .error (n, m) => .err n m
  | .ok u =>
    match catUpdateValid u with
    | some m => .err 400 m
    | none => .ok (applyCatUpdate cur u)

/-- subCategoryController `updateSubCategory` against an existing target. -/
def updateSubCategory (cur : SubCategory) (p : CatPayload) : Res SubCategory :=
  match buildBasicUpdate p with
  | .error (n, m) => .err n m
  | .ok u =>
    match subUpdateValid u with
    | some m => .err 400 m
    | none => .ok (applySubCatUpdate cur u)

/-- The partial-update document built by `updateItem`. -/
structure ItemUpdate where
  name : Option String := none
  image : Option String := none
  description : Option String := none
  taxApplicability : Option Bool := none
  tax : Option ℚ := none
  taxType : Option String := none
  baseAmount : Option ℚ := none
  discount : Option ℚ := none
  totalAmount : Option ℚ := none
  categoryId : Option String := none
  subCategoryId : Option String := none
  unsetCategoryId : Bool := false
  unsetSubCategoryId : Bool := false
  unsetTax : Bool := false
deriving DecidableEq

/-- `updateItem` ownership block: setting one owner id unsets the other;
a truthy id must resolve in the store. -/
def ownerStep (db : Db) (p : ItemPayload) (u : ItemUpdate) :
    Except (Nat × String) ItemUpdate :=
  match p.categoryId with
  | some c =>
    if c ≠ "" && (db.cat c).isNone then .error (404, "Category not found")
    else .ok { u with categoryId := some c, unsetSubCategoryId := true }
  | none =>
    match p.subCategoryId with
    | some s =>
      if s ≠ "" && (db.sub s).isNone then
        .error (404, "Subcategory not found")
      else .ok { u with subCategoryId := some s, unsetCategoryId := true }
    | none => .ok u

/-- `updateItem` tax-settings block (same shape as the Category one). -/
def taxStep (p : ItemPayload) (u : ItemUpdate) :
    Except (Nat × String) ItemUpdate :=
  match p.taxApplicability with
  | some ta =>
    if ta then
      if p.tax.isNone || strFalsy p.taxType then
        .error (400,
          "Tax amount and tax type are required when tax is applicable")
      else .ok { u with taxApplicability := some ta,
                        tax := p.tax, taxType := p.taxType }
    else .ok { u with taxApplicability := some ta, unsetTax := true }
  | none => .ok { u with tax := p.tax, taxType := p.taxType }

/-- `updateItem` derivation block: when either amount field is in the
payload, recompute the total from the post-merge values via
`calculateTotal` (the thrown error surfaces as a 400). -/
def totalStep (cur : Item) (p : ItemPayload) (u : ItemUpdate) :
    Except (Nat × String) ItemUpdate :=
  if p.baseAmount.isSome || p.discount.isSome then
    let newBaseAmount := p.baseAmount.getD cur.baseAmount
    let newDiscount := p.discount.getD cur.discount
    match calculateTotal newBaseAmount newDiscount with
    | .error m => .error (400, m)
    | .ok t => .ok { u with totalAmount := some t }
  else .ok u

/-- The plain-field part of the update document assembled by `updateItem`
(name, image, description, baseAmount, discount copied when present). -/
def initItemUpdate (p : ItemPayload) : ItemUpdate :=
  { name := p.name, image := p.image, description := p.description,
    baseAmount := p.baseAmount, discount := p.discount }

/-- The update document assembled by `updateItem` before persistence. -/
def buildItemUpdate (db : Db) (cur : Item) (p : ItemPayload) :
    Except (Nat × String) ItemUpdate :=
  let u0 : ItemUpdate := initItemUpdate p
  if p.categoryId.isSome && p.subCategoryId.isSome then
    .error (400,
      "Item cannot belong to both category and subcategory simultaneously")
  else
    match ownerStep db p u0 with
    | .error e => .error e
    | .ok u1 =>
      match taxStep p u1 with
      | .error e => .error e
      | .ok u2 => totalStep cur p u2

/-- Item pre-findOneAndUpdate hook: when either amount path is updated,
re-check the discount bound against the stored document and overwrite the
total with the raw (unrounded) difference. -/
def itemHook (cur : Item) (u : ItemUpdate) :
    Except (Nat × String) ItemUpdate :=
  if u.baseAmount.isSome || u.discount.isSome then
    let b := u.baseAmount.getD cur.baseAmount
    let dsc := u.discount.getD cur.discount
    if dsc > b then
      .error (400, "Discount cannot be greater than base amount")
    else .ok { u with totalAmount := some (b - dsc) }
  else .ok u

/-- Update validators for the Item paths present in the update. -/
def itemUpdateValid (u : ItemUpdate) : Option String :=
  if u.name = some "" then some "Item name is required"
  else if u.image = some "" then some "Item image URL is required"
  else if u.description = some "" then some "Item description is required"
  else if belowZero u.tax then
    some "Tax cannot be negative"
  else if aboveHundred u.tax then
    some "Tax cannot exceed 100%"
  else if notInEnum u.taxType then
    some "Tax type is not a valid enum value"
  else if belowZero u.baseAmount then
    some "Base amount cannot be negative"
  else if belowZero u.discount then
    some "Discount cannot be negative"
  else if belowZero u.totalAmount then
    some "Total amount cannot be negative"
  else none

/-- Mongo application of a partial update to a stored Item. -/
def applyItemUpdate (c : Item) (u : ItemUpdate) : Item :=
  { name := u.name.getD c.name,
    image := u.image.getD c.image,
    description := u.description.getD c.description,
    taxApplicability := u.taxApplicability.getD c.taxApplicability,
    tax := if u.unsetTax then none else u.tax <|> c.tax,
    taxType := if u.unsetTax then none else u.taxType <|> c.taxType,
    baseAmount := u.baseAmount.getD c.baseAmount,
    discount := u.discount.getD c.discount,
    totalAmount := u.totalAmount.getD c.totalAmount,
    categoryId := if u.unsetCategoryId then none
      else u.categoryId <|> c.categoryId,
    subCategoryId := if u.unsetSubCategoryId then none
      else u.subCategoryId <|> c.subCategoryId }

/-- itemController `updateItem` against an existing target: build the
update, fail on an empty-string id at cast time, run the pre hook, run the
update validators, apply. -/
def updateItem (db : Db) (cur : Item) (p : ItemPayload) : Res Item :=
  match buildItemUpdate db cur p with
  | .error (n, m) => .err n m
  | .ok u =>
    if u.categoryId = some "" || u.subCategoryId = some "" then
      .err 404 "Item not found"
    else
      match itemHook cur u with
      | .error (n, m) => .err n m
      | .ok u2 =>
        match itemUpdateValid u2 with
        | some m => .err 400 m
        | none => .ok (applyItemUpdate cur u2)

/-- The record visible after an `updateItem` request: unchanged when the
request failed. -/
def itemAfterUpdate (db : Db) (cur : Item) (p : ItemPayload) : Item :=
  match updateItem db cur p with
  | .ok d => d
  | .err _ _ => cur

/-- A request outcome that is an HTTP 400 validation failure. -/
def isErr400 {α : Type} : Res α → Bool
  | .err 400 _ => true
  | _ => false

/-- Exactly one of the two owner references is present on a stored Item. -/
def exactlyOneOwner (d : Item) : Bool :=
  d.categoryId.isSome ^^ d.subCategoryId.isSome

/-! ### Concrete fixtures for witnesses and counterexamples -/

/-- A stored parent Category with applicable tax. -/
def catDrinks : Category :=
  { name := "Drinks", image := "img", description := "d",
    taxApplicability := true, tax := some 10, taxType := some "percentage" }

/-- A stored Category whose tax fields were unset by a true-to-false
update. -/
def catNoTax : Category :=
  { name := "Drinks", image := "img", description := "d",
    taxApplicability := false, tax := none, taxType := none }

/-- A stored SubCategory with applicable tax. -/
def subSoda : SubCategory :=
  { name := "Soda", image := "i", description := "d",
    taxApplicability := true, tax := some 10, taxType := some "percentage",
    categoryId := "c1" }

/-- A store holding `catDrinks` under id c1 and `subSoda` under id s1. -/
def dbDrinks : Db :=
  { cat := fun i => if i = "c1" then some catDrinks else none,
    sub := fun i => if i = "s1" then some subSoda else none }

/-- A store holding `catNoTax` under id c1. -/
def dbNoTax : Db :=
  { cat := fun i => if i = "c1" then some catNoTax else none,
    sub := fun _ => none }

/-- A stored Item owned by category c1. -/
def itemCola : Item :=
  { name := "Cola", image := "i", description := "d",
    taxApplicability := false, tax := none, taxType := some "percentage",
    baseAmount := 20, discount := 0, totalAmount := 20,
    categoryId := some "c1", subCategoryId := none }

/-- `itemCola` after an update setting discount 3. -/
def itemCola3 : Item :=
  { name := "Cola", image := "i", description := "d",
    taxApplicability := false, tax := none, taxType := some "percentage",
    baseAmount := 20, discount := 3, totalAmount := 17,
    categoryId := some "c1", subCategoryId := none }

/-- The SubCategory created under `catNoTax` with all tax fields omitted:
taxType falls back to the schema default. -/
def subSodaDefault : SubCategory :=
  { name := "Soda", image := "i", description := "d",
    taxApplicability := false, tax := none, taxType := some "percentage",
    categoryId := "c1" }

/-- The SubCategory created under `catDrinks` with all tax fields
omitted: the full parent triple is inherited. -/
def subSodaInherit : SubCategory :=
  { name := "Soda", image := "i", description := "d",
    taxApplicability := true, tax := some 10, taxType := some "percentage",
    categoryId := "c1" }

/-- Violating record for claim C4: created under a tax-applicable parent
with taxApplicability overridden to false, it still stores the inherited
tax and taxType. -/
def subSodaOff : SubCategory :=
  { name := "Soda", image := "i", description := "d",
    taxApplicability := false, tax := some 10,
    taxType := some "percentage", categoryId := "c1" }


/-- The record produced by a Category create with taxApplicability false
and no tax fields. -/
def catNoTaxCreated : Category :=
  { name := "Snacks", image := "i", description := "d",
    taxApplicability := false, tax := none, taxType := some "percentage" }

/-- The Item created with baseAmount 10.554: the stored total is the raw
difference, not the two-decimal rounding. -/
def itemOddCents : Item :=
  { name := "Odd", image := "i", description := "d",
    taxApplicability := false, tax := none, taxType := some "percentage",
    baseAmount := 10554/1000, discount := 0, totalAmount := 10554/1000,
    categoryId := some "c1", subCategoryId := none }

/-- The Item created with baseAmount 18.99 and discount 2. -/
def itemCents : Item :=
  { name := "Tea", image := "i", description := "d",
    taxApplicability := false, tax := none, taxType := some "percentage",
    baseAmount := 1899/100, discount := 2, totalAmount := 1699/100,
    categoryId := some "c1", subCategoryId := none }

/-- An Item created under subcategory s1. -/
def itemWings : Item :=
  { name := "Wings", image := "i", description := "d",
    taxApplicability := false, tax := none, taxType := some "percentage",
    baseAmount := 12, discount := 0, totalAmount := 12,
    categoryId := none, subCategoryId := some "s1" }

/-- `catDrinks` after an update setting tax 12. -/
def catDrinks12 : Category :=
  { name := "Drinks", image := "img", description := "d",
    taxApplicability := true, tax := some 12, taxType := some "percentage" }

/-- `subSoda` after an update setting tax 12. -/
def subSoda12 : SubCategory :=
  { name := "Soda", image := "i", description := "d",
    taxApplicability := true, tax := some 12, taxType := some "percentage",
    categoryId := "c1" }

/-! ### Helper lemmas -/

theorem getD_idem {α : Type} (o : Option α) (x : α) :
    o.getD (o.getD x) = o.getD x := by
  cases o <;> rfl

theorem orElse_idem {α : Type} (o q : Option α) :
    (o <|> (o <|> q)) = (o <|> q) := by
  cases o <;> rfl

theorem getD_congr {α : Type} (o : Option α) (a b : α) (h : b = o.getD a) :
    o.getD b = o.getD a := by
  cases o with
  | none => simpa using h
  | some v => rfl


theorem ownerStep_ok_fields {db : Db} {p : ItemPayload} {u v : ItemUpdate}
    (h : ownerStep db p u = .ok v) :
    v.name = u.name ∧ v.image = u.image ∧ v.description = u.description ∧
    v.taxApplicability = u.taxApplicability ∧ v.tax = u.tax ∧
    v.taxType = u.taxType ∧ v.unsetTax = u.unsetTax ∧
    v.baseAmount = u.baseAmount ∧ v.discount = u.discount ∧
    v.totalAmount = u.totalAmount := by
  unfold ownerStep at h
  split at h
  · split at h
    · exact absurd h (by simp)
    · injection h with h; subst h; exact ⟨rfl, rfl, rfl, rfl, rfl, rfl, rfl, rfl, rfl, rfl⟩
  · split at h
    · split at h
      · exact absurd h (by simp)
      · injection h with h; subst h; exact ⟨rfl, rfl, rfl, rfl, rfl, rfl, rfl, rfl, rfl, rfl⟩
    · injection h with h; subst h; exact ⟨rfl, rfl, rfl, rfl, rfl, rfl, rfl, rfl, rfl, rfl⟩

theorem ownerStep_ok_owner {db : Db} {p : ItemPayload} {u v : ItemUpdate}
    (h : ownerStep db p u = .ok v) :
    (p.categoryId = none ∧ p.subCategoryId = none ∧
      v.categoryId = u.categoryId ∧ v.subCategoryId = u.subCategoryId ∧
      v.unsetCategoryId = u.unsetCategoryId ∧
      v.unsetSubCategoryId = u.unsetSubCategoryId) ∨
    (∃ c, p.categoryId = some c ∧ v.categoryId = some c ∧
      v.subCategoryId = u.subCategoryId ∧
      v.unsetCategoryId = u.unsetCategoryId ∧ v.unsetSubCategoryId = true) ∨
    (∃ sid, p.categoryId = none ∧ p.subCategoryId = some sid ∧
      v.subCategoryId = some sid ∧ v.categoryId = u.categoryId ∧
      v.unsetSubCategoryId = u.unsetSubCategoryId ∧
      v.unsetCategoryId = true) := by
  unfold ownerStep at h
  split at h
  next c heq =>
    split at h
    · exact absurd h (by simp)
    · injection h with h; subst h
      exact Or.inr (Or.inl ⟨c, heq, rfl, rfl, rfl, rfl⟩)
  next heq =>
    split at h
    next sid heq2 =>
      split at h
      · exact absurd h (by simp)
      · injection h with h; subst h
        exact Or.inr (Or.inr ⟨sid, heq, heq2, rfl, rfl, rfl, rfl⟩)
    next heq2 =>
      injection h with h; subst h
      exact Or.inl ⟨heq, heq2, rfl, rfl, rfl, rfl⟩

theorem taxStep_ok_fields {p : ItemPayload} {u v : ItemUpdate}
    (h : taxStep p u = .ok v) :
    v.name = u.name ∧ v.image = u.image ∧ v.description = u.description ∧
    v.baseAmount = u.baseAmount ∧ v.discount = u.discount ∧
    v.totalAmount = u.totalAmount ∧ v.categoryId = u.categoryId ∧
    v.subCategoryId = u.subCategoryId ∧
    v.unsetCategoryId = u.unsetCategoryId ∧
    v.unsetSubCategoryId = u.unsetSubCategoryId := by
  unfold taxStep at h
  split at h
  · split at h
    · split at h
      · exact absurd h (by simp)
      · injection h with h; subst h
        exact ⟨rfl, rfl, rfl, rfl, rfl, rfl, rfl, rfl, rfl, rfl⟩
    · injection h with h; subst h
      exact ⟨rfl, rfl, rfl, rfl, rfl, rfl, rfl, rfl, rfl, rfl⟩
  · injection h with h; subst h
    exact ⟨rfl, rfl, rfl, rfl, rfl, rfl, rfl, rfl, rfl, rfl⟩

theorem taxStep_ok_tax {p : ItemPayload} {u v : ItemUpdate}
    (h : taxStep p u = .ok v) :
    (p.taxApplicability = some true ∧ p.tax.isNone = false ∧
      strFalsy p.taxType = false ∧ v.taxApplicability = some true ∧
      v.tax = p.tax ∧ v.taxType = p.taxType ∧ v.unsetTax = u.unsetTax) ∨
    (p.taxApplicability = some false ∧ v.taxApplicability = some false ∧
      v.unsetTax = true ∧ v.tax = u.tax ∧ v.taxType = u.taxType) ∨
    (p.taxApplicability = none ∧ v.taxApplicability = u.taxApplicability ∧
      v.tax = p.tax ∧ v.taxType = p.taxType ∧ v.unsetTax = u.unsetTax) := by
  unfold taxStep at h
  split at h
  next ta heq =>
    split at h
    next hta =>
      split at h
      next hgate => exact absurd h (by simp)
      next hgate =>
        injection h with h; subst h
        refine Or.inl ⟨by rw [heq, hta], ?_, ?_, by rw [hta], rfl, rfl, rfl⟩
        · cases hx : p.tax.isNone <;> simp_all
        · cases hx : strFalsy p.taxType <;> simp_all
    next hta =>
      injection h with h; subst h
      have : ta = false := by cases ta <;> simp_all
      exact Or.inr (Or.inl ⟨by rw [heq, this], by rw [this], rfl, rfl, rfl⟩)
  next heq =>
    injection h with h; subst h
    exact Or.inr (Or.inr ⟨heq, rfl, rfl, rfl, rfl⟩)

theorem totalStep_ok_fields {cur : Item} {p : ItemPayload} {u v : ItemUpdate}
    (h : totalStep cur p u = .ok v) :
    v.name = u.name ∧ v.image = u.image ∧ v.description = u.description ∧
    v.taxApplicability = u.taxApplicability ∧ v.tax = u.tax ∧
    v.taxType = u.taxType ∧ v.unsetTax = u.unsetTax ∧
    v.baseAmount = u.baseAmount ∧ v.discount = u.discount ∧
    v.categoryId = u.categoryId ∧ v.subCategoryId = u.subCategoryId ∧
    v.unsetCategoryId = u.unsetCategoryId ∧
    v.unsetSubCategoryId = u.unsetSubCategoryId := by
  unfold totalStep at h
  dsimp only at h
  split at h
  · split at h
    · exact absurd h (by simp)
    · injection h with h; subst h
      exact ⟨rfl, rfl, rfl, rfl, rfl, rfl, rfl, rfl, rfl, rfl, rfl, rfl, rfl⟩
  · injection h with h; subst h
    exact ⟨rfl, rfl, rfl, rfl, rfl, rfl, rfl, rfl, rfl, rfl, rfl, rfl, rfl⟩

theorem itemHook_ok_fields {cur : Item} {u v : ItemUpdate}
    (h : itemHook cur u = .ok v) :
    v.name = u.name ∧ v.image = u.image ∧ v.description = u.description ∧
    v.taxApplicability = u.taxApplicability ∧ v.tax = u.tax ∧
    v.taxType = u.taxType ∧ v.unsetTax = u.unsetTax ∧
    v.baseAmount = u.baseAmount ∧ v.discount = u.discount ∧
    v.categoryId = u.categoryId ∧ v.subCategoryId = u.subCategoryId ∧
    v.unsetCategoryId = u.unsetCategoryId ∧
    v.unsetSubCategoryId = u.unsetSubCategoryId := by
  unfold itemHook at h
  dsimp only at h
  split at h
  · split at h
    · exact absurd h (by simp)
    · injection h with h; subst h
      exact ⟨rfl, rfl, rfl, rfl, rfl, rfl, rfl, rfl, rfl, rfl, rfl, rfl, rfl⟩
  · injection h with h; subst h
    exact ⟨rfl, rfl, rfl, rfl, rfl, rfl, rfl, rfl, rfl, rfl, rfl, rfl, rfl⟩

theorem itemHook_ok_total {cur : Item} {u v : ItemUpdate}
    (h : itemHook cur u = .ok v) :
    ((u.baseAmount.isSome || u.discount.isSome) = false ∧
      v.totalAmount = u.totalAmount) ∨
    ((u.baseAmount.isSome || u.discount.isSome) = true ∧
      (u.discount.getD cur.discount > u.baseAmount.getD cur.baseAmount) =
        False ∧
      v.totalAmount =
        some (u.baseAmount.getD cur.baseAmount -
          u.discount.getD cur.discount)) := by
  unfold itemHook at h
  dsimp only at h
  split at h
  next hcond =>
    split at h
    next hgt => exact absurd h (by simp)
    next hgt =>
      injection h with h; subst h
      exact Or.inr ⟨by simpa using hcond, by simp_all, rfl⟩
  next hcond =>
    injection h with h; subst h
    exact Or.inl ⟨by simpa using hcond, rfl⟩


theorem totalStep_ok_total {cur : Item} {p : ItemPayload} {u v : ItemUpdate}
    (h : totalStep cur p u = .ok v) :
    ((p.baseAmount.isSome || p.discount.isSome) = false ∧ v = u) ∨
    ((p.baseAmount.isSome || p.discount.isSome) = true ∧
      ∃ t, calculateTotal (p.baseAmount.getD cur.baseAmount)
          (p.discount.getD cur.discount) = .ok t ∧
        v = { u with totalAmount := some t }) := by
  unfold totalStep at h
  dsimp only at h
  split at h
  next hcond =>
    split at h
    next heq => exact absurd h (by simp)
    next t heq =>
      injection h with h
      exact Or.inr ⟨hcond, t, heq, h.symm⟩
  next hcond =>
    injection h with h
    exact Or.inl ⟨by simpa using hcond, h.symm⟩

theorem totalStep_congr {p : ItemPayload} {cur d : Item}
    (hbase : d.baseAmount = p.baseAmount.getD cur.baseAmount)
    (hdisc : d.discount = p.discount.getD cur.discount) :
    totalStep d p = totalStep cur p := by
  funext u
  unfold totalStep
  dsimp only
  rw [getD_congr _ _ _ hbase, getD_congr _ _ _ hdisc]

theorem itemHook_congr {cur d : Item} {u : ItemUpdate}
    (hbase : d.baseAmount = u.baseAmount.getD cur.baseAmount)
    (hdisc : d.discount = u.discount.getD cur.discount) :
    itemHook d u = itemHook cur u := by
  unfold itemHook
  dsimp only
  rw [getD_congr _ _ _ hbase, getD_congr _ _ _ hdisc]

theorem buildItemUpdate_ok_inv {db : Db} {cur : Item} {p : ItemPayload}
    {u : ItemUpdate} (h : buildItemUpdate db cur p = .ok u) :
    ∃ u1 u2 : ItemUpdate,
      (p.categoryId.isSome && p.subCategoryId.isSome) = false ∧
      ownerStep db p (initItemUpdate p) = .ok u1 ∧
      taxStep p u1 = .ok u2 ∧ totalStep cur p u2 = .ok u := by
  unfold buildItemUpdate at h
  dsimp only at h
  split at h
  · exact absurd h (by simp)
  next hboth =>
    rcases ho : ownerStep db p (initItemUpdate p) with e | u1
    · rw [ho] at h; exact absurd h (by simp)
    · rw [ho] at h
      dsimp only at h
      rcases ht : taxStep p u1 with e | u2
      · rw [ht] at h; exact absurd h (by simp)
      · rw [ht] at h
        dsimp only at h
        exact ⟨u1, u2, by simpa using hboth, rfl, ht, h⟩

theorem buildItemUpdate_congr {db : Db} {p : ItemPayload} {cur d : Item}
    (hbase : d.baseAmount = p.baseAmount.getD cur.baseAmount)
    (hdisc : d.discount = p.discount.getD cur.discount) :
    buildItemUpdate db d p = buildItemUpdate db cur p := by
  unfold buildItemUpdate
  rw [totalStep_congr hbase hdisc]

theorem buildItemUpdate_ok_amounts {db : Db} {cur : Item} {p : ItemPayload}
    {u : ItemUpdate} (h : buildItemUpdate db cur p = .ok u) :
    u.baseAmount = p.baseAmount ∧ u.discount = p.discount := by
  obtain ⟨u1, u2, -, ho, ht, htot⟩ := buildItemUpdate_ok_inv h
  obtain ⟨-, -, -, -, -, -, -, hb1, hd1, -⟩ := ownerStep_ok_fields ho
  obtain ⟨-, -, -, hb2, hd2, -⟩ := taxStep_ok_fields ht
  obtain ⟨-, -, -, -, -, -, -, hb3, hd3, -⟩ := totalStep_ok_fields htot
  exact ⟨by rw [hb3, hb2, hb1]; rfl, by rw [hd3, hd2, hd1]; rfl⟩

theorem updateItem_ok_inv {db : Db} {cur : Item} {p : ItemPayload} {d : Item}
    (h : updateItem db cur p = Res.ok d) :
    ∃ u u2 : ItemUpdate,
      buildItemUpdate db cur p = .ok u ∧
      u.categoryId ≠ some "" ∧ u.subCategoryId ≠ some "" ∧
      itemHook cur u = .ok u2 ∧ itemUpdateValid u2 = none ∧
      d = applyItemUpdate cur u2 := by
  unfold updateItem at h
  rcases hb : buildItemUpdate db cur p with e | u
  · rw [hb] at h
    rcases e with ⟨n, m⟩
    exact absurd h (by simp)
  · rw [hb] at h
    dsimp only at h
    split at h
    next hcast => exact absurd h (by simp)
    next hcast =>
      rcases hh : itemHook cur u with e | u2
      · rw [hh] at h
        rcases e with ⟨n, m⟩
        exact absurd h (by simp)
      · rw [hh] at h
        dsimp only at h
        rcases hv : itemUpdateValid u2 with - | m
        swap
        · rw [hv] at h; exact absurd h (by simp)
        · rw [hv] at h
          dsimp only at h
          injection h with h
          refine ⟨u, u2, rfl, ?_, ?_, hh, hv, h.symm⟩
          · intro hc; exact hcast (by simp [hc])
          · intro hc; exact hcast (by simp [hc])

theorem applyItemUpdate_idem (c : Item) (u : ItemUpdate) :
    applyItemUpdate (applyItemUpdate c u) u = applyItemUpdate c u := by
  unfold applyItemUpdate
  by_cases h1 : u.unsetTax <;> by_cases h2 : u.unsetCategoryId <;>
    by_cases h3 : u.unsetSubCategoryId <;>
      simp [h1, h2, h3, getD_idem, orElse_idem]

theorem applyCatUpdate_idem (c : Category) (u : BasicUpdate) :
    applyCatUpdate (applyCatUpdate c u) u = applyCatUpdate c u := by
  unfold applyCatUpdate
  by_cases h1 : u.unsetTax <;> simp [h1, getD_idem, orElse_idem]

theorem applySubCatUpdate_idem (s : SubCategory) (u : BasicUpdate) :
    applySubCatUpdate (applySubCatUpdate s u) u = applySubCatUpdate s u := by
  unfold applySubCatUpdate
  by_cases h1 : u.unsetTax <;> simp [h1, getD_idem, orElse_idem]

theorem updateCategory_ok_inv {cur : Category} {p : CatPayload} {c : Category}
    (h : updateCategory cur p = Res.ok c) :
    ∃ u : BasicUpdate, buildBasicUpdate p = .ok u ∧
      catUpdateValid u = none ∧ c = applyCatUpdate cur u := by
  unfold updateCategory at h
  rcases hb : buildBasicUpdate p with e | u
  · rw [hb] at h; rcases e with ⟨n, m⟩; exact absurd h (by simp)
  · rw [hb] at h
    dsimp only at h
    rcases hv : catUpdateValid u with - | m
    swap
    · rw [hv] at h; exact absurd h (by simp)
    · rw [hv] at h
      dsimp only at h
      injection h with h
      exact ⟨u, rfl, hv, h.symm⟩

theorem updateSubCategory_ok_inv {cur : SubCategory} {p : CatPayload}
    {s : SubCategory} (h : updateSubCategory cur p = Res.ok s) :
    ∃ u : BasicUpdate, buildBasicUpdate p = .ok u ∧
      subUpdateValid u = none ∧ s = applySubCatUpdate cur u := by
  unfold updateSubCategory at h
  rcases hb : buildBasicUpdate p with e | u
  · rw [hb] at h; rcases e with ⟨n, m⟩; exact absurd h (by simp)
  · rw [hb] at h
    dsimp only at h
    rcases hv : subUpdateValid u with - | m
    swap
    · rw [hv] at h; exact absurd h (by simp)
    · rw [hv] at h
      dsimp only at h
      injection h with h
      exact ⟨u, rfl, hv, h.symm⟩

theorem buildBasicUpdate_ok_tax {p : CatPayload} {u : BasicUpdate}
    (h : buildBasicUpdate p = .ok u) :
    (p.taxApplicability = some true ∧ p.tax.isNone = false ∧
      strFalsy p.taxType = false ∧ u.taxApplicability = some true ∧
      u.tax = p.tax ∧ u.taxType = p.taxType ∧ u.unsetTax = false) ∨
    (p.taxApplicability = some false ∧ u.taxApplicability = some false ∧
      u.unsetTax = true) ∨
    (p.taxApplicability = none ∧ u.taxApplicability = none ∧
      u.tax = p.tax ∧ u.taxType = p.taxType ∧ u.unsetTax = false) := by
  unfold buildBasicUpdate at h
  dsimp only at h
  split at h
  next ta heq =>
    split at h
    next hta =>
      split at h
      next hgate => exact absurd h (by simp)
      next hgate =>
        injection h with h; subst h
        refine Or.inl ⟨by rw [heq, hta], ?_, ?_, by rw [hta], rfl, rfl, rfl⟩
        · cases hx : p.tax.isNone <;> simp_all
        · cases hx : strFalsy p.taxType <;> simp_all
    next hta =>
      injection h with h; subst h
      have hfalse : ta = false := by cases ta <;> simp_all
      exact Or.inr (Or.inl ⟨by rw [heq, hfalse], by rw [hfalse], rfl⟩)
  next heq =>
    injection h with h; subst h
    exact Or.inr (Or.inr ⟨heq, rfl, rfl, rfl, rfl⟩)


theorem createItem_ok_inv {db : Db} {p : ItemPayload} {d : Item}
    (h : createItem db p = Res.ok d) :
    ∃ doc : Item,
      itemDocValid doc = none ∧ d = itemPreSaveHook doc ∧
      doc.taxApplicability = p.taxApplicability.getD false ∧
      doc.tax = (if p.taxApplicability.getD false then p.tax else none) ∧
      doc.taxType =
        some ((if p.taxApplicability.getD false then p.taxType
          else none).getD "percentage") ∧
      doc.baseAmount = p.baseAmount.getD 0 ∧
      doc.discount = p.discount.getD 0 ∧
      doc.categoryId = (if idTruthy p.categoryId then p.categoryId else none) ∧
      doc.subCategoryId =
        (if idTruthy p.categoryId then none else p.subCategoryId) ∧
      (idTruthy p.categoryId || idTruthy p.subCategoryId) = true ∧
      (idTruthy p.categoryId && idTruthy p.subCategoryId) = false := by
  simp only [createItem] at h
  split at h
  · exact absurd h (by simp)
  split at h
  · exact absurd h (by simp)
  split at h
  · exact absurd h (by simp)
  split at h
  · exact absurd h (by simp)
  split at h
  · exact absurd h (by simp)
  split at h
  · exact absurd h (by simp)
  split at h
  · exact absurd h (by simp)
  split at h
  · exact absurd h (by simp)
  next hvalid =>
    refine ⟨_, hvalid, ?_, rfl, rfl, rfl, rfl, rfl, ?_, ?_, ?_, ?_⟩
    · injection h with h; exact h.symm
    · rfl
    · rfl
    · cases hA : idTruthy p.categoryId <;> cases hB : idTruthy p.subCategoryId <;>
        simp_all
    · cases hA : idTruthy p.categoryId <;> cases hB : idTruthy p.subCategoryId <;>
        simp_all

theorem createCategory_ok_inv {p : CatPayload} {c : Category}
    (h : createCategory p = Res.ok c) :
    categoryDocValid c = none ∧ p.taxApplicability.isNone = false ∧
    c.taxApplicability = p.taxApplicability.getD false ∧
    c.tax = (if p.taxApplicability.getD false then p.tax else none) ∧
    c.taxType =
      some ((if p.taxApplicability.getD false then p.taxType
        else none).getD "percentage") := by
  simp only [createCategory] at h
  split at h
  next hreq => exact absurd h (by simp)
  next hreq =>
    split at h
    · exact absurd h (by simp)
    split at h
    · exact absurd h (by simp)
    next hvalid =>
      injection h with h
      subst h
      refine ⟨hvalid, ?_, rfl, rfl, rfl⟩
      cases hx : p.taxApplicability.isNone <;> simp_all

theorem createSubCategory_ok_inv {db : Db} {cid : String} {p : CatPayload}
    {parent : Category} {s : SubCategory}
    (hpar : db.cat cid = some parent)
    (h : createSubCategory db cid p = Res.ok s) :
    subCategoryDocValid s = none ∧
    s.taxApplicability = p.taxApplicability.getD parent.taxApplicability ∧
    s.tax = (p.tax <|> parent.tax) ∧
    s.taxType = some ((p.taxType <|> parent.taxType).getD "percentage") ∧
    s.categoryId = cid := by
  simp only [createSubCategory] at h
  split at h
  · exact absurd h (by simp)
  rw [hpar] at h
  dsimp only at h
  split at h
  · exact absurd h (by simp)
  split at h
  · exact absurd h (by simp)
  next hvalid =>
    injection h with h
    subst h
    exact ⟨hvalid, rfl, rfl, rfl, rfl⟩


/-- Peel one link of an if-chain validator that returned no error. -/
theorem ite_none_left {c : Prop} [Decidable c] {m : String}
    {rest : Option String}
    (h : (if c then some m else rest) = none) : ¬c ∧ rest = none := by
  by_cases hc : c
  · rw [if_pos hc] at h; exact Option.noConfusion h
  · rw [if_neg hc] at h; exact ⟨hc, h⟩

/-- The bound and enum checks shared by all six validators. -/
theorem tax_bounds_of_checks {tax : Option ℚ} {taxType : Option String}
    (hmin : ¬belowZero tax = true) (hmax : ¬aboveHundred tax = true)
    (henum : ¬notInEnum taxType = true) :
    (∀ t, tax = some t → 0 ≤ t ∧ t ≤ 100) ∧
    (∀ v, taxType = some v → enumTaxType v = true) := by
  refine ⟨fun t ht => ?_, fun v hv => ?_⟩
  · subst ht
    constructor
    · by_contra hlt
      exact hmin (by simp [belowZero, lt_of_not_le hlt])
    · by_contra hgt
      exact hmax (by simp [aboveHundred, lt_of_not_le hgt])
  · subst hv
    cases he : enumTaxType v
    · exact absurd (by simp [notInEnum, he]) henum
    · rfl

/-- The required-if checks shared by the three document validators. -/
theorem tax_required_of_checks {ta : Bool} {tax : Option ℚ}
    {taxType : Option String}
    (hreq : ¬(ta && tax.isNone) = true)
    (htreq : ¬(ta && taxType.isNone) = true) :
    ta = true → tax.isNone = false ∧ taxType.isNone = false := by
  intro hta
  subst hta
  constructor
  · cases hx : tax.isNone
    · rfl
    · exact absurd (by rw [hx]; rfl) hreq
  · cases hx : taxType.isNone
    · rfl
    · exact absurd (by rw [hx]; rfl) htreq

theorem categoryDocValid_none_facts {c : Category}
    (h : categoryDocValid c = none) :
    (c.taxApplicability = true →
      c.tax.isNone = false ∧ c.taxType.isNone = false) ∧
    (∀ t, c.tax = some t → 0 ≤ t ∧ t ≤ 100) ∧
    (∀ v, c.taxType = some v → enumTaxType v = true) := by
  unfold categoryDocValid at h
  obtain ⟨-, h⟩ := ite_none_left h
  obtain ⟨-, h⟩ := ite_none_left h
  obtain ⟨-, h⟩ := ite_none_left h
  obtain ⟨h4, h⟩ := ite_none_left h
  obtain ⟨h5, h⟩ := ite_none_left h
  obtain ⟨h6, h⟩ := ite_none_left h
  obtain ⟨h7, h⟩ := ite_none_left h
  obtain ⟨h8, -⟩ := ite_none_left h
  obtain ⟨hb, he⟩ := tax_bounds_of_checks h5 h6 h8
  exact ⟨tax_required_of_checks h4 h7, hb, he⟩

theorem subCategoryDocValid_none_facts {s : SubCategory}
    (h : subCategoryDocValid s = none) :
    (s.taxApplicability = true →
      s.tax.isNone = false ∧ s.taxType.isNone = false) ∧
    (∀ t, s.tax = some t → 0 ≤ t ∧ t ≤ 100) ∧
    (∀ v, s.taxType = some v → enumTaxType v = true) := by
  unfold subCategoryDocValid at h
  obtain ⟨-, h⟩ := ite_none_left h
  obtain ⟨-, h⟩ := ite_none_left h
  obtain ⟨-, h⟩ := ite_none_left h
  obtain ⟨h4, h⟩ := ite_none_left h
  obtain ⟨h5, h⟩ := ite_none_left h
  obtain ⟨h6, h⟩ := ite_none_left h
  obtain ⟨h7, h⟩ := ite_none_left h
  obtain ⟨h8, -⟩ := ite_none_left h
  obtain ⟨hb, he⟩ := tax_bounds_of_checks h5 h6 h8
  exact ⟨tax_required_of_checks h4 h7, hb, he⟩

theorem itemDocValid_none_facts {d : Item} (h : itemDocValid d = none) :
    (d.taxApplicability = true →
      d.tax.isNone = false ∧ d.taxType.isNone = false) ∧
    (∀ t, d.tax = some t → 0 ≤ t ∧ t ≤ 100) ∧
    (∀ v, d.taxType = some v → enumTaxType v = true) := by
  unfold itemDocValid at h
  obtain ⟨-, h⟩ := ite_none_left h
  obtain ⟨-, h⟩ := ite_none_left h
  obtain ⟨-, h⟩ := ite_none_left h
  obtain ⟨h4, h⟩ := ite_none_left h
  obtain ⟨h5, h⟩ := ite_none_left h
  obtain ⟨h6, h⟩ := ite_none_left h
  obtain ⟨h7, h⟩ := ite_none_left h
  obtain ⟨h8, -⟩ := ite_none_left h
  obtain ⟨hb, he⟩ := tax_bounds_of_checks h5 h6 h8
  exact ⟨tax_required_of_checks h4 h7, hb, he⟩

theorem catUpdateValid_none_facts {u : BasicUpdate}
    (h : catUpdateValid u = none) :
    (∀ t, u.tax = some t → 0 ≤ t ∧ t ≤ 100) ∧
    (∀ v, u.taxType = some v → enumTaxType v = true) := by
  unfold catUpdateValid at h
  obtain ⟨-, h⟩ := ite_none_left h
  obtain ⟨-, h⟩ := ite_none_left h
  obtain ⟨-, h⟩ := ite_none_left h
  obtain ⟨h4, h⟩ := ite_none_left h
  obtain ⟨h5, h⟩ := ite_none_left h
  obtain ⟨h6, -⟩ := ite_none_left h
  exact tax_bounds_of_checks h4 h5 h6

theorem subUpdateValid_none_facts {u : BasicUpdate}
    (h : subUpdateValid u = none) :
    (∀ t, u.tax = some t → 0 ≤ t ∧ t ≤ 100) ∧
    (∀ v, u.taxType = some v → enumTaxType v = true) := by
  unfold subUpdateValid at h
  obtain ⟨-, h⟩ := ite_none_left h
  obtain ⟨-, h⟩ := ite_none_left h
  obtain ⟨-, h⟩ := ite_none_left h
  obtain ⟨h4, h⟩ := ite_none_left h
  obtain ⟨h5, h⟩ := ite_none_left h
  obtain ⟨h6, -⟩ := ite_none_left h
  exact tax_bounds_of_checks h4 h5 h6

theorem itemUpdateValid_none_facts {u : ItemUpdate}
    (h : itemUpdateValid u = none) :
    (∀ t, u.tax = some t → 0 ≤ t ∧ t ≤ 100) ∧
    (∀ v, u.taxType = some v → enumTaxType v = true) := by
  unfold itemUpdateValid at h
  obtain ⟨-, h⟩ := ite_none_left h
  obtain ⟨-, h⟩ := ite_none_left h
  obtain ⟨-, h⟩ := ite_none_left h
  obtain ⟨h4, h⟩ := ite_none_left h
  obtain ⟨h5, h⟩ := ite_none_left h
  obtain ⟨h6, -⟩ := ite_none_left h
  exact tax_bounds_of_checks h4 h5 h6


theorem createSubCategory_ok_valid {db : Db} {cid : String} {p : CatPayload}
    {s : SubCategory} (h : createSubCategory db cid p = Res.ok s) :
    subCategoryDocValid s = none := by
  rcases hpar : db.cat cid with - | parent
  · unfold createSubCategory at h
    split at h
    · exact Res.noConfusion h
    rw [hpar] at h
    exact Res.noConfusion h
  · exact (createSubCategory_ok_inv hpar h).1

/-- Claim C2 (amended): for a SubCategory create under an existing parent,
each tax field is taken from the request when present, else from the
parent; except that when the merged taxType is absent the stored value is
the schema default percentage rather than the parent's absent value. -/
theorem C2_subcategory_tax_inheritance {db : Db} {cid : String}
    {p : CatPayload} {parent : Category} {s : SubCategory}
    (hpar : db.cat cid = some parent)
    (h : createSubCategory db cid p = Res.ok s) :
    s.taxApplicability = p.taxApplicability.getD parent.taxApplicability ∧
    s.tax = (p.tax <|> parent.tax) ∧
    s.taxType = some ((p.taxType <|> parent.taxType).getD "percentage") := by
  obtain ⟨-, h1, h2, h3, -⟩ := createSubCategory_ok_inv hpar h
  exact ⟨h1, h2, h3⟩

/-- Claim C2 counterexample: a parent whose taxType was unset by a
true-to-false update has taxType absent; the SubCategory then created
under it with all three tax fields omitted stores taxType percentage, not
the parent's value. -/
theorem C2_counterexample :
    updateCategory catDrinks { taxApplicability := some false } =
      Res.ok catNoTax ∧
    dbNoTax.cat "c1" = some catNoTax ∧
    createSubCategory dbNoTax "c1"
      { name := some "Soda", image := some "i", description := some "d" } =
      Res.ok subSodaDefault ∧
    subSodaDefault.taxType ≠ catNoTax.taxType :=
  ⟨by decide, by decide, by decide, by decide⟩

theorem C2_witness :
    subSodaInherit.taxApplicability =
      (Option.getD none catDrinks.taxApplicability) ∧
    subSodaInherit.tax = (none <|> catDrinks.tax) ∧
    subSodaInherit.taxType =
      some ((none <|> catDrinks.taxType).getD "percentage") := by
  have h := C2_subcategory_tax_inheritance
    (show dbDrinks.cat "c1" = some catDrinks from by decide)
    (show createSubCategory dbDrinks "c1"
        { name := some "Soda", image := some "i", description := some "d" } =
        Res.ok subSodaInherit from by decide)
  exact h

/-- Claim C4 (amended): create paths drop a supplied tax when
taxApplicability is false and updates to false unset both fields, but a
created record stores taxType percentage by schema default, and the
SubCategory create path keeps an inherited or supplied tax value even
under taxApplicability false. -/
theorem C4_tax_fields_on_non_applicable :
    (∀ p c, createCategory p = Res.ok c → c.taxApplicability = false →
      c.tax = none ∧ c.taxType = some "percentage") ∧
    (∀ db q d, createItem db q = Res.ok d → d.taxApplicability = false →
      d.tax = none ∧ d.taxType = some "percentage") ∧
    (∀ cur p c, p.taxApplicability = some false →
      updateCategory cur p = Res.ok c →
      c.taxApplicability = false ∧ c.tax = none ∧ c.taxType = none) ∧
    (∀ cur p s, p.taxApplicability = some false →
      updateSubCategory cur p = Res.ok s →
      s.taxApplicability = false ∧ s.tax = none ∧ s.taxType = none) ∧
    (∀ db cur q d, q.taxApplicability = some false →
      updateItem db cur q = Res.ok d →
      d.taxApplicability = false ∧ d.tax = none ∧ d.taxType = none) := by
  refine ⟨?_, ?_, ?_, ?_, ?_⟩
  · intro p c h hfalse
    obtain ⟨-, -, hta, htax, htt⟩ := createCategory_ok_inv h
    rw [hta] at hfalse
    rw [hfalse] at htax htt
    simp at htax htt
    exact ⟨htax, htt⟩
  · intro db q d h hfalse
    obtain ⟨doc, -, hd, hta, htax, htt, -⟩ := createItem_ok_inv h
    subst hd
    have hfd : doc.taxApplicability = false := hfalse
    rw [hfd] at hta
    rw [← hta] at htax htt
    simp at htax htt
    exact ⟨htax, htt⟩
  · intro cur p c hta h
    obtain ⟨u, hb, hv, hc⟩ := updateCategory_ok_inv h
    rcases buildBasicUpdate_ok_tax hb with
      ⟨h1, -⟩ | ⟨-, h2, h3⟩ | ⟨h1, -⟩
    · rw [hta] at h1; exact absurd (Option.some.inj h1) (by simp)
    · subst hc
      refine ⟨?_, ?_, ?_⟩ <;> simp [applyCatUpdate, h2, h3]
    · rw [hta] at h1; exact Option.noConfusion h1
  · intro cur p s hta h
    obtain ⟨u, hb, hv, hc⟩ := updateSubCategory_ok_inv h
    rcases buildBasicUpdate_ok_tax hb with
      ⟨h1, -⟩ | ⟨-, h2, h3⟩ | ⟨h1, -⟩
    · rw [hta] at h1; exact absurd (Option.some.inj h1) (by simp)
    · subst hc
      refine ⟨?_, ?_, ?_⟩ <;> simp [applySubCatUpdate, h2, h3]
    · rw [hta] at h1; exact Option.noConfusion h1
  · intro db cur q d hta h
    obtain ⟨u, u2h, hb, -, -, hh, -, hd⟩ := updateItem_ok_inv h
    obtain ⟨u1, u2, -, ho, ht, htot⟩ := buildItemUpdate_ok_inv hb
    rcases taxStep_ok_tax ht with ⟨h1, -⟩ | ⟨-, h2, h3, -⟩ | ⟨h1, -⟩
    · rw [hta] at h1; exact absurd (Option.some.inj h1) (by simp)
    · obtain ⟨-, -, -, hta4, -, -, hut4, -⟩ := totalStep_ok_fields htot
      obtain ⟨-, -, -, hta5, -, -, hut5, -⟩ := itemHook_ok_fields hh
      subst hd
      refine ⟨?_, ?_, ?_⟩ <;>
        simp [applyItemUpdate, hta5, hta4, hut5, hut4, h2, h3]
    · rw [hta] at h1; exact Option.noConfusion h1

/-- Claim C4 counterexample: a successful SubCategory create with
taxApplicability false stores tax 10 and taxType percentage inherited
from the parent. -/
theorem C4_counterexample :
    createSubCategory dbDrinks "c1"
      { name := some "Soda", image := some "i", description := some "d",
        taxApplicability := some false } = Res.ok subSodaOff ∧
    subSodaOff.taxApplicability = false ∧ subSodaOff.tax ≠ none ∧
    subSodaOff.taxType ≠ none :=
  ⟨by decide, by decide, by decide, by decide⟩

theorem C4_witness :
    catNoTax.taxApplicability = false ∧ catNoTax.tax = none ∧
    catNoTax.taxType = none :=
  C4_tax_fields_on_non_applicable.2.2.1 catDrinks
    { taxApplicability := some false } catNoTax (by decide) (by decide)


/-- Claim C7 (amended): a write with taxApplicability true succeeds only
with tax present in the closed range 0 to 100 and taxType in the enum; the
schema max applies to every taxType, so fixed with tax above 100 is
rejected, not accepted. -/
theorem C7_tax_bounds_any_type :
    (∀ p c, createCategory p = Res.ok c → c.taxApplicability = true →
      (∃ t, c.tax = some t ∧ 0 ≤ t ∧ t ≤ 100) ∧
      (∃ v, c.taxType = some v ∧ enumTaxType v = true)) ∧
    (∀ db cid p s, createSubCategory db cid p = Res.ok s →
      s.taxApplicability = true →
      (∃ t, s.tax = some t ∧ 0 ≤ t ∧ t ≤ 100) ∧
      (∃ v, s.taxType = some v ∧ enumTaxType v = true)) ∧
    (∀ db q d, createItem db q = Res.ok d → d.taxApplicability = true →
      (∃ t, d.tax = some t ∧ 0 ≤ t ∧ t ≤ 100) ∧
      (∃ v, d.taxType = some v ∧ enumTaxType v = true)) ∧
    (∀ cur p c, p.taxApplicability = some true →
      updateCategory cur p = Res.ok c →
      (∃ t, c.tax = some t ∧ 0 ≤ t ∧ t ≤ 100) ∧
      (∃ v, c.taxType = some v ∧ enumTaxType v = true)) ∧
    (∀ cur p s, p.taxApplicability = some true →
      updateSubCategory cur p = Res.ok s →
      (∃ t, s.tax = some t ∧ 0 ≤ t ∧ t ≤ 100) ∧
      (∃ v, s.taxType = some v ∧ enumTaxType v = true)) ∧
    (∀ db cur q d, q.taxApplicability = some true →
      updateItem db cur q = Res.ok d →
      (∃ t, d.tax = some t ∧ 0 ≤ t ∧ t ≤ 100) ∧
      (∃ v, d.taxType = some v ∧ enumTaxType v = true)) := by
  refine ⟨?_, ?_, ?_, ?_, ?_, ?_⟩
  · intro p c h htrue
    obtain ⟨hvalid, -⟩ := createCategory_ok_inv h
    obtain ⟨hreq, hbound, henum⟩ := categoryDocValid_none_facts hvalid
    obtain ⟨hne, -⟩ := hreq htrue
    rcases hx : c.tax with - | t
    · rw [hx] at hne; simp at hne
    rcases hy : c.taxType with - | v
    · obtain ⟨-, hne2⟩ := hreq htrue
      rw [hy] at hne2; simp at hne2
    exact ⟨⟨t, rfl, hbound t hx⟩, ⟨v, rfl, henum v hy⟩⟩
  · intro db cid p s h htrue
    have hvalid := createSubCategory_ok_valid h
    obtain ⟨hreq, hbound, henum⟩ := subCategoryDocValid_none_facts hvalid
    obtain ⟨hne, hne2⟩ := hreq htrue
    rcases hx : s.tax with - | t
    · rw [hx] at hne; simp at hne
    rcases hy : s.taxType with - | v
    · rw [hy] at hne2; simp at hne2
    exact ⟨⟨t, rfl, hbound t hx⟩, ⟨v, rfl, henum v hy⟩⟩
  · intro db q d h htrue
    obtain ⟨doc, hvalid, hd, -⟩ := createItem_ok_inv h
    obtain ⟨hreq, hbound, henum⟩ := itemDocValid_none_facts hvalid
    subst hd
    obtain ⟨hne, hne2⟩ := hreq htrue
    rcases hx : doc.tax with - | t
    · rw [hx] at hne; simp at hne
    rcases hy : doc.taxType with - | v
    · rw [hy] at hne2; simp at hne2
    exact ⟨⟨t, hx, hbound t hx⟩, ⟨v, hy, henum v hy⟩⟩
  · intro cur p c hta h
    obtain ⟨u, hb, hv, hc⟩ := updateCategory_ok_inv h
    obtain ⟨hbound, henum⟩ := catUpdateValid_none_facts hv
    rcases buildBasicUpdate_ok_tax hb with
      ⟨-, hne, hntt, -, hutax, hutt, hunset⟩ | ⟨h1, -⟩ | ⟨h1, -⟩
    · rcases hx : p.tax with - | t
      · rw [hx] at hne; simp at hne
      rcases hy : p.taxType with - | v
      · rw [hy] at hntt; simp [strFalsy] at hntt
      subst hc
      have hct : (applyCatUpdate cur u).tax = some t := by
        simp [applyCatUpdate, hunset, hutax, hx]
      have hctt : (applyCatUpdate cur u).taxType = some v := by
        simp [applyCatUpdate, hunset, hutt, hy]
      refine ⟨⟨t, hct, hbound t (by rw [hutax, hx])⟩,
        ⟨v, hctt, henum v (by rw [hutt, hy])⟩⟩
    · rw [hta] at h1; exact absurd (Option.some.inj h1) (by simp)
    · rw [hta] at h1; exact Option.noConfusion h1
  · intro cur p s hta h
    obtain ⟨u, hb, hv, hc⟩ := updateSubCategory_ok_inv h
    obtain ⟨hbound, henum⟩ := subUpdateValid_none_facts hv
    rcases buildBasicUpdate_ok_tax hb with
      ⟨-, hne, hntt, -, hutax, hutt, hunset⟩ | ⟨h1, -⟩ | ⟨h1, -⟩
    · rcases hx : p.tax with - | t
      · rw [hx] at hne; simp at hne
      rcases hy : p.taxType with - | v
      · rw [hy] at hntt; simp [strFalsy] at hntt
      subst hc
      have hct : (applySubCatUpdate cur u).tax = some t := by
        simp [applySubCatUpdate, hunset, hutax, hx]
      have hctt : (applySubCatUpdate cur u).taxType = some v := by
        simp [applySubCatUpdate, hunset, hutt, hy]
      refine ⟨⟨t, hct, hbound t (by rw [hutax, hx])⟩,
        ⟨v, hctt, henum v (by rw [hutt, hy])⟩⟩
    · rw [hta] at h1; exact absurd (Option.some.inj h1) (by simp)
    · rw [hta] at h1; exact Option.noConfusion h1
  · intro db cur q d hta h
    obtain ⟨u, u2h, hb, -, -, hh, hv, hd⟩ := updateItem_ok_inv h
    obtain ⟨u1, u2, -, ho, ht, htot⟩ := buildItemUpdate_ok_inv hb
    obtain ⟨hbound, henum⟩ := itemUpdateValid_none_facts hv
    rcases taxStep_ok_tax ht with
      ⟨-, hne, hntt, -, hutax, hutt, hstu⟩ | ⟨h1, -⟩ | ⟨h1, -⟩
    · obtain ⟨-, -, -, -, -, -, hou, -⟩ := ownerStep_ok_fields ho
      obtain ⟨-, -, -, -, htax4, htt4, hut4, -⟩ := totalStep_ok_fields htot
      obtain ⟨-, -, -, -, htax5, htt5, hut5, -⟩ := itemHook_ok_fields hh
      rcases hx : q.tax with - | t
      · rw [hx] at hne; simp at hne
      rcases hy : q.taxType with - | v
      · rw [hy] at hntt; simp [strFalsy] at hntt
      have hu2tax : u2h.tax = some t := by rw [htax5, htax4, hutax, hx]
      have hu2tt : u2h.taxType = some v := by rw [htt5, htt4, hutt, hy]
      have hu2unset : u2h.unsetTax = false := by
        rw [hut5, hut4, hstu, hou]; rfl
      subst hd
      have hdt : (applyItemUpdate cur u2h).tax = some t := by
        simp [applyItemUpdate, hu2unset, hu2tax]
      have hdtt : (applyItemUpdate cur u2h).taxType = some v := by
        simp [applyItemUpdate, hu2unset, hu2tt]
      exact ⟨⟨t, hdt, hbound t hu2tax⟩, ⟨v, hdtt, henum v hu2tt⟩⟩
    · rw [hta] at h1; exact absurd (Option.some.inj h1) (by simp)
    · rw [hta] at h1; exact Option.noConfusion h1

/-- Claim C7 counterexample: a Category create with taxType fixed and
tax 150 is rejected by the schema max, where the claim says a fixed tax
above 100 is accepted. -/
theorem C7_counterexample :
    createCategory
      { name := some "Snacks", image := some "i", description := some "d",
        taxApplicability := some true, tax := some 150,
        taxType := some "fixed" } =
      Res.err 400 "Tax cannot exceed 100%" := by decide

theorem C7_witness :
    ((∃ t, catDrinks.tax = some t ∧ 0 ≤ t ∧ t ≤ 100) ∧
     (∃ v, catDrinks.taxType = some v ∧ enumTaxType v = true)) :=
  C7_tax_bounds_any_type.1
    { name := some "Drinks", image := some "img", description := some "d",
      taxApplicability := some true, tax := some 10,
      taxType := some "percentage" } catDrinks (by decide) (by decide)

/-- Claim C6 (amended): a Category create request omitting
taxApplicability is rejected with 400 rather than defaulting to false;
with taxApplicability false supplied and tax fields unspecified, the
stored record has taxApplicability false and no tax, but taxType is
stored as the schema default percentage rather than being absent. -/
theorem C6_category_create_defaults (p : CatPayload) :
    (p.taxApplicability = none →
      createCategory p =
        Res.err 400
          "Name, image, description, and tax applicability are required") ∧
    (∀ c, p.taxApplicability = some false → createCategory p = Res.ok c →
      c.taxApplicability = false ∧ c.tax = none ∧
      c.taxType = some "percentage") := by
  constructor
  · intro hta
    unfold createCategory
    rw [if_pos (by simp [hta])]
  · intro c hta h
    obtain ⟨-, -, hcta, htax, htt⟩ := createCategory_ok_inv h
    rw [hta] at hcta htax htt
    simp [Option.getD] at hcta htax htt
    exact ⟨hcta, htax, htt⟩

/-- Claim C6 counterexample: the create request omitting taxApplicability
fails with 400 instead of succeeding with the default false; and a create
with taxApplicability false stores taxType percentage instead of no
taxType. -/
theorem C6_counterexample :
    createCategory
      { name := some "Snacks", image := some "i",
        description := some "d" } =
      Res.err 400
        "Name, image, description, and tax applicability are required" ∧
    ∃ c, createCategory
        { name := some "Snacks", image := some "i", description := some "d",
          taxApplicability := some false } = Res.ok c ∧
      c.taxType ≠ none :=
  ⟨by decide, ⟨catNoTaxCreated, by decide, by decide⟩⟩

theorem C6_witness :
    createCategory
      { name := some "Tea", image := some "i", description := some "d" } =
      Res.err 400
        "Name, image, description, and tax applicability are required" ∧
    (catNoTaxCreated.taxApplicability = false ∧ catNoTaxCreated.tax = none ∧
      catNoTaxCreated.taxType = some "percentage") :=
  ⟨(C6_category_create_defaults
      { name := some "Tea", image := some "i",
        description := some "d" }).1 (by decide),
   (C6_category_create_defaults
      { name := some "Snacks", image := some "i", description := some "d",
        taxApplicability := some false }).2 catNoTaxCreated
      (by decide) (by decide)⟩

/-- Claim C10: an update that sets taxApplicability to true is rejected
with the 400 message unless tax and taxType are both supplied in the same
payload; the stored values are never consulted. -/
theorem C10_true_update_requires_both_fields :
    (∀ (cur : Category) (p : CatPayload), p.taxApplicability = some true →
      (p.tax.isNone || strFalsy p.taxType) = true →
      updateCategory cur p =
        Res.err 400
          "Tax amount and tax type are required when tax is applicable") ∧
    (∀ (cur : SubCategory) (p : CatPayload),
      p.taxApplicability = some true →
      (p.tax.isNone || strFalsy p.taxType) = true →
      updateSubCategory cur p =
        Res.err 400
          "Tax amount and tax type are required when tax is applicable") ∧
    (∀ (db : Db) (cur : Item) (q : ItemPayload),
      q.taxApplicability = some true →
      (q.tax.isNone || strFalsy q.taxType) = true →
      q.categoryId = none → q.subCategoryId = none →
      updateItem db cur q =
        Res.err 400
          "Tax amount and tax type are required when tax is applicable") := by
  refine ⟨?_, ?_, ?_⟩
  · intro cur p hta hgate
    have hb : buildBasicUpdate p =
        .error (400,
          "Tax amount and tax type are required when tax is applicable") := by
      unfold buildBasicUpdate
      rw [hta]
      simp [hgate]
    simp [updateCategory, hb]
  · intro cur p hta hgate
    have hb : buildBasicUpdate p =
        .error (400,
          "Tax amount and tax type are required when tax is applicable") := by
      unfold buildBasicUpdate
      rw [hta]
      simp [hgate]
    simp [updateSubCategory, hb]
  · intro db cur q hta hgate hcat hsub
    have howner : ownerStep db q (initItemUpdate q) =
        .ok (initItemUpdate q) := by
      unfold ownerStep; rw [hcat, hsub]
    have htx : taxStep q (initItemUpdate q) =
        .error (400,
          "Tax amount and tax type are required when tax is applicable") := by
      unfold taxStep
      rw [hta]
      simp [hgate]
    have hb : buildItemUpdate db cur q =
        .error (400,
          "Tax amount and tax type are required when tax is applicable") := by
      unfold buildItemUpdate
      rw [hcat, hsub]
      simp [howner, htx]
    simp [updateItem, hb]

theorem C10_witness :
    updateCategory catDrinks
      { taxApplicability := some true, tax := some 12 } =
      Res.err 400
        "Tax amount and tax type are required when tax is applicable" ∧
    updateSubCategory subSoda
      { taxApplicability := some true, tax := some 12 } =
      Res.err 400
        "Tax amount and tax type are required when tax is applicable" ∧
    updateItem dbDrinks itemCola
      { taxApplicability := some true, tax := some 12 } =
      Res.err 400
        "Tax amount and tax type are required when tax is applicable" :=
  ⟨C10_true_update_requires_both_fields.1 catDrinks
      { taxApplicability := some true, tax := some 12 }
      (by decide) (by decide),
   C10_true_update_requires_both_fields.2.1 subSoda
      { taxApplicability := some true, tax := some 12 }
      (by decide) (by decide),
   C10_true_update_requires_both_fields.2.2 dbDrinks itemCola
      { taxApplicability := some true, tax := some 12 }
      (by decide) (by decide) (by decide) (by decide)⟩

/-- Claim C5: an Item update whose post-merge amounts violate the
discount bound fails with 400 and the exact message, and the stored
record is unchanged. -/
theorem C5_discount_exceeding_base_rejected {db : Db} {cur : Item}
    {p : ItemPayload}
    (hcat : p.categoryId = none) (hsub : p.subCategoryId = none)
    (htax : p.taxApplicability = some true →
      p.tax.isNone = false ∧ strFalsy p.taxType = false)
    (hsome : (p.baseAmount.isSome || p.discount.isSome) = true)
    (hb : 0 ≤ p.baseAmount.getD cur.baseAmount)
    (hd : 0 ≤ p.discount.getD cur.discount)
    (hgt : p.baseAmount.getD cur.baseAmount <
      p.discount.getD cur.discount) :
    updateItem db cur p =
      Res.err 400 "Discount cannot be greater than base amount" ∧
    itemAfterUpdate db cur p = cur := by
  have hcalc : calculateTotal (p.baseAmount.getD cur.baseAmount)
      (p.discount.getD cur.discount) =
      .error "Discount cannot be greater than base amount" := by
    unfold calculateTotal
    rw [if_neg (not_lt.mpr hb), if_neg (not_lt.mpr hd), if_pos hgt]
  have howner : ownerStep db p (initItemUpdate p) =
      .ok (initItemUpdate p) := by
    unfold ownerStep; rw [hcat, hsub]
  have htx : ∃ u2, taxStep p (initItemUpdate p) = .ok u2 := by
    unfold taxStep
    rcases hta : p.taxApplicability with - | ta
    · exact ⟨_, rfl⟩
    · cases ta
      · exact ⟨_, rfl⟩
      · obtain ⟨h1, h2⟩ := htax hta
        refine ⟨{ initItemUpdate p with
                    taxApplicability := some true,
                    tax := p.tax,
                    taxType := p.taxType }, ?_⟩
        simp [h1, h2]
  obtain ⟨u2, htx⟩ := htx
  have htot : totalStep cur p u2 =
      .error (400, "Discount cannot be greater than base amount") := by
    unfold totalStep
    simp [hsome, hcalc]
  have hbuild : buildItemUpdate db cur p =
      .error (400, "Discount cannot be greater than base amount") := by
    unfold buildItemUpdate
    rw [hcat, hsub]
    simp [howner, htx, htot]
  constructor
  · simp [updateItem, hbuild]
  · simp [itemAfterUpdate, updateItem, hbuild]

theorem C5_witness :
    updateItem dbDrinks itemCola { discount := some 50 } =
      Res.err 400 "Discount cannot be greater than base amount" ∧
    itemAfterUpdate dbDrinks itemCola { discount := some 50 } = itemCola :=
  C5_discount_exceeding_base_rejected (by decide) (by decide) (by decide)
    (by decide) (by decide) (by decide) (by decide)


/-- Claim C8: the caller-supplied totalAmount field of an Item request is
never read by the create or update path; the result is identical for any
value of that field. -/
theorem C8_total_ignores_caller_value :
    (∀ (db : Db) (p : ItemPayload) (t : Option ℚ),
      createItem db { p with totalAmount := t } = createItem db p) ∧
    (∀ (db : Db) (cur : Item) (p : ItemPayload) (t : Option ℚ),
      updateItem db cur { p with totalAmount := t } =
        updateItem db cur p) := by
  constructor
  · intro db p t
    cases p
    rfl
  · intro db cur p t
    cases p
    rfl

/-- Claim C1 (amended): after a successful Item create, and after a
successful Item update touching baseAmount or discount, the stored
totalAmount equals the exact difference baseAmount minus discount of the
stored record; the pre-save and pre-update hooks overwrite the rounded
value from calculateTotal with the raw difference, so the round2 form
holds exactly when that difference has at most two decimal places. -/
theorem C1_total_exact_difference :
    (∀ (db : Db) (p : ItemPayload) (d : Item), createItem db p = Res.ok d →
      d.totalAmount = d.baseAmount - d.discount) ∧
    (∀ (db : Db) (cur : Item) (p : ItemPayload) (d : Item),
      updateItem db cur p = Res.ok d →
      (p.baseAmount.isSome || p.discount.isSome) = true →
      d.totalAmount = d.baseAmount - d.discount) := by
  constructor
  · intro db p d h
    obtain ⟨doc, -, hd, -⟩ := createItem_ok_inv h
    subst hd
    rfl
  · intro db cur p d h hsome
    obtain ⟨u, u2h, hb, -, -, hh, -, hd⟩ := updateItem_ok_inv h
    obtain ⟨hub, hud⟩ := buildItemUpdate_ok_amounts hb
    obtain ⟨-, -, -, -, -, -, -, hb5, hd5, -⟩ := itemHook_ok_fields hh
    rcases itemHook_ok_total hh with ⟨hflag, -⟩ | ⟨-, -, htotal⟩
    · rw [hub, hud] at hflag
      rw [hsome] at hflag
      exact Bool.noConfusion hflag
    · subst hd
      show (applyItemUpdate cur u2h).totalAmount =
        (applyItemUpdate cur u2h).baseAmount -
          (applyItemUpdate cur u2h).discount
      rw [show (applyItemUpdate cur u2h).totalAmount =
        u2h.totalAmount.getD cur.totalAmount from rfl, htotal]
      simp [applyItemUpdate, hb5, hd5]

/-- Claim C1 counterexample: a create whose base amount has three decimal
places stores the unrounded difference, which differs from its round2. -/
theorem C1_counterexample :
    createItem dbDrinks
      { name := some "Odd", image := some "i", description := some "d",
        taxApplicability := some false, baseAmount := some (10554/1000),
        categoryId := some "c1" } = Res.ok itemOddCents ∧
    itemOddCents.totalAmount ≠
      round2 (itemOddCents.baseAmount - itemOddCents.discount) :=
  ⟨by decide, by decide⟩

theorem C1_witness :
    itemCents.totalAmount = itemCents.baseAmount - itemCents.discount ∧
    itemCola3.totalAmount = itemCola3.baseAmount - itemCola3.discount :=
  ⟨C1_total_exact_difference.1 dbDrinks
      { name := some "Tea", image := some "i", description := some "d",
        taxApplicability := some false, baseAmount := some (1899/100),
        discount := some 2, categoryId := some "c1" } itemCents (by decide),
   C1_total_exact_difference.2 dbDrinks itemCola { discount := some 3 }
      itemCola3 (by decide) (by decide)⟩

/-- Claim C3: every successful Item write leaves exactly one owner
reference set; a create supplying both identifiers or neither fails with
a 400. -/
theorem C3_owner_exclusivity :
    (∀ (db : Db) (p : ItemPayload) (d : Item), createItem db p = Res.ok d →
      exactlyOneOwner d = true) ∧
    (∀ (db : Db) (p : ItemPayload),
      idTruthy p.categoryId = true → idTruthy p.subCategoryId = true →
      isErr400 (createItem db p) = true) ∧
    (∀ (db : Db) (p : ItemPayload),
      idTruthy p.categoryId = false → idTruthy p.subCategoryId = false →
      isErr400 (createItem db p) = true) ∧
    (∀ (db : Db) (cur : Item) (p : ItemPayload) (d : Item),
      exactlyOneOwner cur = true → updateItem db cur p = Res.ok d →
      exactlyOneOwner d = true) := by
  refine ⟨?_, ?_, ?_, ?_⟩
  · intro db p d h
    obtain ⟨doc, -, hd, -, -, -, -, -, hcat, hsub, hor, hand⟩ :=
      createItem_ok_inv h
    subst hd
    cases hA : idTruthy p.categoryId
    · have hsubT : idTruthy p.subCategoryId = true := by
        rw [hA] at hor; simpa using hor
      rw [hA] at hcat hsub
      simp at hcat hsub
      rcases hx : p.subCategoryId with - | sid
      · rw [hx] at hsubT; exact absurd hsubT (by simp [idTruthy])
      · rw [hx] at hsub
        simp [exactlyOneOwner, itemPreSaveHook, hcat, hsub]
    · rw [hA] at hcat hsub
      simp at hcat hsub
      rcases hx : p.categoryId with - | cid
      · rw [hx] at hA; exact absurd hA (by simp [idTruthy])
      · rw [hx] at hcat
        simp [exactlyOneOwner, itemPreSaveHook, hcat, hsub]
  · intro db p h1 h2
    unfold createItem
    split
    · rfl
    split
    · rfl
    rw [if_pos (show (idTruthy p.categoryId && idTruthy p.subCategoryId) =
      true by rw [h1, h2]; decide)]
    rfl
  · intro db p h1 h2
    unfold createItem
    split
    · rfl
    rw [if_pos (show (!idTruthy p.categoryId && !idTruthy p.subCategoryId) =
      true by rw [h1, h2]; decide)]
    rfl
  · intro db cur p d hone h
    obtain ⟨u, u2h, hb, -, -, hh, -, hd⟩ := updateItem_ok_inv h
    obtain ⟨u1, u2, -, ho, ht, htot⟩ := buildItemUpdate_ok_inv hb
    obtain ⟨-, -, -, -, -, -, hc2, hs2, huc2, hus2⟩ := taxStep_ok_fields ht
    obtain ⟨-, -, -, -, -, -, -, -, -, hc3, hs3, huc3, hus3⟩ :=
      totalStep_ok_fields htot
    obtain ⟨-, -, -, -, -, -, -, -, -, hc4, hs4, huc4, hus4⟩ :=
      itemHook_ok_fields hh
    subst hd
    rcases ownerStep_ok_owner ho with
      ⟨-, -, hc1, hs1, huc1, hus1⟩ | ⟨c, -, hc1, hs1, huc1, hus1⟩ |
      ⟨sid, -, -, hs1, hc1, hus1, huc1⟩
    · have hcN : u2h.categoryId = none := by
        rw [hc4, hc3, hc2, hc1]; rfl
      have hsN : u2h.subCategoryId = none := by
        rw [hs4, hs3, hs2, hs1]; rfl
      have hucN : u2h.unsetCategoryId = false := by
        rw [huc4, huc3, huc2, huc1]; rfl
      have husN : u2h.unsetSubCategoryId = false := by
        rw [hus4, hus3, hus2, hus1]; rfl
      simpa [exactlyOneOwner, applyItemUpdate, hcN, hsN, hucN, husN]
        using hone
    · have hcS : u2h.categoryId = some c := by rw [hc4, hc3, hc2, hc1]
      have hsN : u2h.subCategoryId = none := by
        rw [hs4, hs3, hs2, hs1]; rfl
      have hucN : u2h.unsetCategoryId = false := by
        rw [huc4, huc3, huc2, huc1]; rfl
      have husT : u2h.unsetSubCategoryId = true := by
        rw [hus4, hus3, hus2, hus1]
      simp [exactlyOneOwner, applyItemUpdate, hcS, hsN, hucN, husT]
    · have hsS : u2h.subCategoryId = some sid := by
        rw [hs4, hs3, hs2, hs1]
      have hcN : u2h.categoryId = none := by rw [hc4, hc3, hc2, hc1]; rfl
      have husN : u2h.unsetSubCategoryId = false := by
        rw [hus4, hus3, hus2, hus1]; rfl
      have hucT : u2h.unsetCategoryId = true := by
        rw [huc4, huc3, huc2, huc1]
      simp [exactlyOneOwner, applyItemUpdate, hsS, hcN, husN, hucT]

theorem C3_witness :
    exactlyOneOwner itemWings = true ∧
    isErr400 (createItem dbDrinks
      { name := some "A", image := some "i", description := some "d",
        taxApplicability := some false, baseAmount := some 5,
        categoryId := some "c1", subCategoryId := some "s1" }) = true ∧
    isErr400 (createItem dbDrinks
      { name := some "A", image := some "i", description := some "d",
        taxApplicability := some false, baseAmount := some 5 }) = true ∧
    exactlyOneOwner itemCola3 = true :=
  ⟨C3_owner_exclusivity.1 dbDrinks
      { name := some "Wings", image := some "i", description := some "d",
        taxApplicability := some false, baseAmount := some 12,
        subCategoryId := some "s1" } itemWings (by decide),
   C3_owner_exclusivity.2.1 dbDrinks
      { name := some "A", image := some "i", description := some "d",
        taxApplicability := some false, baseAmount := some 5,
        categoryId := some "c1", subCategoryId := some "s1" }
      (by decide) (by decide),
   C3_owner_exclusivity.2.2.1 dbDrinks
      { name := some "A", image := some "i", description := some "d",
        taxApplicability := some false, baseAmount := some 5 }
      (by decide) (by decide),
   C3_owner_exclusivity.2.2.2 dbDrinks itemCola { discount := some 3 }
      itemCola3 (by decide) (by decide)⟩


/-- Claim C9: applying the same update payload twice yields the same
stored state as applying it once, for Category, SubCategory and Item
updates (timestamps are not modelled). -/
theorem C9_update_idempotent :
    (∀ (cur : Category) (p : CatPayload) (c : Category),
      updateCategory cur p = Res.ok c → updateCategory c p = Res.ok c) ∧
    (∀ (cur : SubCategory) (p : CatPayload) (s : SubCategory),
      updateSubCategory cur p = Res.ok s →
        updateSubCategory s p = Res.ok s) ∧
    (∀ (db : Db) (cur : Item) (p : ItemPayload) (d : Item),
      updateItem db cur p = Res.ok d → updateItem db d p = Res.ok d) := by
  refine ⟨?_, ?_, ?_⟩
  · intro cur p c h
    obtain ⟨u, hb, hv, hc⟩ := updateCategory_ok_inv h
    unfold updateCategory
    rw [hb]
    dsimp only
    rw [hv]
    dsimp only
    rw [hc]
    exact congrArg Res.ok (applyCatUpdate_idem cur u)
  · intro cur p s h
    obtain ⟨u, hb, hv, hc⟩ := updateSubCategory_ok_inv h
    unfold updateSubCategory
    rw [hb]
    dsimp only
    rw [hv]
    dsimp only
    rw [hc]
    exact congrArg Res.ok (applySubCatUpdate_idem cur u)
  · intro db cur p d h
    obtain ⟨u, u2h, hb, hc1, hc2, hh, hv, hd⟩ := updateItem_ok_inv h
    obtain ⟨hub, hud⟩ := buildItemUpdate_ok_amounts hb
    obtain ⟨-, -, -, -, -, -, -, hb5, hd5, -⟩ := itemHook_ok_fields hh
    have hdb : d.baseAmount = p.baseAmount.getD cur.baseAmount := by
      rw [hd]
      show u2h.baseAmount.getD cur.baseAmount = _
      rw [hb5, hub]
    have hdd : d.discount = p.discount.getD cur.discount := by
      rw [hd]
      show u2h.discount.getD cur.discount = _
      rw [hd5, hud]
    unfold updateItem
    rw [buildItemUpdate_congr hdb hdd, hb]
    dsimp only
    rw [if_neg (by simp [hc1, hc2])]
    have hhook : itemHook d u = itemHook cur u :=
      itemHook_congr (by rw [hub]; exact hdb) (by rw [hud]; exact hdd)
    rw [hhook, hh]
    dsimp only
    rw [hv]
    dsimp only
    rw [hd]
    exact congrArg Res.ok (applyItemUpdate_idem cur u2h)

theorem C9_witness :
    updateCategory catDrinks12 { tax := some 12 } = Res.ok catDrinks12 ∧
    updateSubCategory subSoda12 { tax := some 12 } = Res.ok subSoda12 ∧
    updateItem dbDrinks itemCola3 { discount := some 3 } =
      Res.ok itemCola3 :=
  ⟨C9_update_idempotent.1 catDrinks { tax := some 12 } catDrinks12
      (by decide),
   C9_update_idempotent.2.1 subSoda { tax := some 12 } subSoda12
      (by decide),
   C9_update_idempotent.2.2 dbDrinks itemCola { discount := some 3 }
      itemCola3 (by decide)⟩

end Catalog
